import Mathlib

/-!
Verification of the climate-index engine of climate_tools
(src/climate_tools/climate_indices.py) against its natural-language
specification.

The Python functions are shallowly embedded as Lean functions on lists:

* a daily series of floating-point values becomes a `List Rat`;
* a result that is either a number, the missing sentinel np.nan, or a raised
  exception becomes `PyResult (Option _)` with `none` standing for np.nan;
* each embedded definition mirrors the control flow of the source function
  line by line; numpy and pandas primitives that the source relies on
  (np.max on an empty array, indexing a plain list with a numpy tuple,
  truth testing of arrays, inner merge, centered rolling mean, quantile)
  are modelled by named helper definitions whose comments state the exact
  library behaviour being captured.
-/

set_option maxRecDepth 10000

/-- Exceptions raised by the embedded fragments of the Python source. -/
inductive PyErr where
  | typeError
  | valueError
  | indexingError
  | attributeError
  deriving DecidableEq, Repr

/-- Result of running a fragment of Python code: a value or a raised error. -/
inductive PyResult (α : Type) where
  | ok : α → PyResult α
  | raised : PyErr → PyResult α
  deriving DecidableEq, Repr

/-- Embedding of is_valid_year_length: the series length is 365 or 366. -/
def is_valid_year_length (arr : List Rat) : Bool :=
  arr.length == 365 || arr.length == 366

/-- One step of run-length encoding: prepend element a to an encoded tail,
either extending the first run (equal value) or opening a new run. -/
def rleStep {α : Type} [DecidableEq α] (a : α) : List (α × Nat) → List (α × Nat)
  | [] => [(a, 1)]
  | (b, n) :: rest =>
    if a = b then (a, n + 1) :: rest else (a, 1) :: (b, n) :: rest

/-- Run-length encoding as produced by itertools.groupby: maximal runs of
adjacent equal elements, as (value, run length) pairs in input order. -/
def rleAux {α : Type} [DecidableEq α] : List α → List (α × Nat)
  | [] => []
  | a :: tl => rleStep a (rleAux tl)

/-- Embedding of rle: the pair of the list of run values and the list of the
corresponding run lengths. -/
def rle {α : Type} [DecidableEq α] (arr : List α) : List α × List Nat :=
  (rleAux arr).unzip

/-- Decoding of a run-length encoding: each value repeated by its length. -/
def rleDecode {α : Type} (pairs : List (α × Nat)) : List α :=
  (pairs.map (fun p => List.replicate p.2 p.1)).flatten

/-- Embedding of numpy nonzero / np.where on a boolean array: the list of the
indices of the true entries, in increasing order. -/
def nonzeroIdx (mask : List Bool) : List Nat :=
  (mask.enum.filter (fun p => p.2)).map (fun p => p.1)

/-- Fancy indexing np.array(lengths)[np.where(values)]: the run lengths at the
positions where the run value is true (values and lengths are parallel). -/
def npWhereSelect (values : List Bool) (lengths : List Nat) : List Nat :=
  ((values.zip lengths).filter (fun p => p.1)).map (fun p => p.2)

/-- Embedding of np.max on an integer array: the maximum, except that numpy
raises ValueError on a zero-size array (reduction with no identity). -/
def npMaxList (l : List Nat) : PyResult Nat :=
  match l with
  | [] => .raised .valueError
  | a :: tl => .ok (tl.foldl max a)

/-- Indexing a plain Python list with the tuple returned by numpy nonzero.
Unlike a numpy array, a Python list only accepts integers or slices as
indices, so this raises TypeError whatever the operands are. -/
def pyListIndexTuple (l : List Nat) (idx : List Nat) : PyResult (List Nat) :=
  .raised .typeError

/-- Embedding of consecutive_fd: gate on year length, run-length-encode the
boolean series tmin below zero, select the lengths of the true runs with
np.where, and take np.max of the selection. -/
def consecutive_fd (tmin : List Rat) : PyResult (Option Int) :=
  if ¬ is_valid_year_length tmin then .ok none
  else
    let r := rle (tmin.map (fun x => decide (x < 0)))
    match npMaxList (npWhereSelect r.1 r.2) with
    | .ok m => .ok (some (m : Int))
    | .raised e => .raised e

/-- Embedding of consecutive_sd: as consecutive_fd with tmax above 25. -/
def consecutive_sd (tmax : List Rat) : PyResult (Option Int) :=
  if ¬ is_valid_year_length tmax then .ok none
  else
    let r := rle (tmax.map (fun x => decide (25 < x)))
    match npMaxList (npWhereSelect r.1 r.2) with
    | .ok m => .ok (some (m : Int))
    | .raised e => .raised e

/-- Embedding of consecutive_dd: gate on year length, run-length-encode the
boolean series prec below 1, then evaluate
np.max(lengths[np.array(values).nonzero()]). Unlike consecutive_fd and
consecutive_sd, the source leaves lengths as a plain Python list here, so the
indexing step is the list-indexed-by-tuple operation. -/
def consecutive_dd (prec : List Rat) : PyResult (Option Int) :=
  if ¬ is_valid_year_length prec then .ok none
  else
    let r := rle (prec.map (fun x => decide (x < 1)))
    match pyListIndexTuple r.2 (nonzeroIdx r.1) with
    | .raised e => .raised e
    | .ok sel =>
      match npMaxList sel with
      | .ok m => .ok (some (m : Int))
      | .raised e => .raised e

/-- Embedding of sum_of_hdd: gate on year length, then the sum of (17 - value)
over the entries below 17. -/
def sum_of_hdd (tmean : List Rat) : PyResult (Option Rat) :=
  if ¬ is_valid_year_length tmean then .ok none
  else .ok (some (((tmean.filter (fun x => decide (x < 17))).map (fun x => 17 - x)).sum))

/-- Precipitation series of the specification scenario for CDD: 366 values,
wet up to day 49, a seven-day dry run at days 50..56, wet afterwards. -/
def cddScenarioPrec : List Rat :=
  List.replicate 50 2 ++ List.replicate 7 0 ++ List.replicate 309 2

/-- A 365-day minimum-temperature series with no frost day at all. -/
def noFrostYear : List Rat := List.replicate 365 5

/-- A 365-day mean-temperature series whose growing season starts at day 0
and which has two separate six-day-plus cold runs after the July boundary:
warm days 0..199, cold days 200..209, warm days 210..220, cold days
221..230, warm days 231..364. -/
def gslTwoEndRuns : List Rat :=
  List.replicate 200 10 ++ List.replicate 10 0 ++ List.replicate 11 10 ++
    List.replicate 10 0 ++ List.replicate 134 10

/-- A 365-day mean-temperature series with one cold run straddling the July
boundary so that exactly one qualifying day position lies after it: warm
days 0..176, cold days 177..183, warm days 184..364. -/
def gslStraddleRun : List Rat :=
  List.replicate 177 10 ++ List.replicate 7 0 ++ List.replicate 181 10

/-- The 365-entry profile 0, 1, ..., 364, on which every position carries its
own index as value. -/
def rangeProfile : List Rat := (List.range 365).map (fun n => (n : Rat))

/-- Minimum-temperature series for the cold-nights counterexample: six warm
days, a six-day below-threshold run starting at day position 6, then warm
days up to a length of 365. -/
def cnSixAtSix : List Rat :=
  List.replicate 6 10 ++ List.replicate 6 (-10) ++ List.replicate 353 10

/-- An all-zero 365-entry threshold profile. -/
def zeroProfile : List Rat := List.replicate 365 0

/-- Embedding of calendar.isleap. -/
def isleap (y : Int) : Bool :=
  (y % 4 == 0 && y % 100 != 0) || (y % 400 == 0)

/-- Number of days of a calendar year. -/
def daysInYear (y : Int) : Nat := if isleap y then 366 else 365

/-- The days of year y as (year, day of year) pairs, day of year 1-based. -/
def yearDates (y : Int) : List (Int × Nat) :=
  (List.range (daysInYear y)).map (fun i => (y, i + 1))

/-- The dates of the reference period in calendar order, starting at
January 1 of year y0 and covering nYears whole years. -/
def periodYearDoys (y0 : Int) (nYears : Nat) : List (Int × Nat) :=
  ((List.range nYears).map (fun (k : Nat) => yearDates (y0 + k))).flatten

/-- Leap folding of the day of year as done on the DAYOFYEAR column: in a
leap year every day of year of at least 60 (Feb 29 onwards) is decremented,
so Feb 29 shares label 59 with Feb 28 and later days align with a non-leap
calendar. -/
def foldedDoy (y : Int) (d : Nat) : Nat :=
  if isleap y && decide (60 ≤ d) then d - 1 else d

/-- The extended date range of the calibrator: all day numbers from the start
day minus window/2 (integer division) to the end day plus window/2,
inclusive and in order. -/
def daterange_extended (startDay endDay : Int) (window : Nat) : List Int :=
  (List.range (endDay - startDay + 1 + 2 * ((window / 2 : Nat) : Int)).toNat).map
    (fun (i : Nat) => startDay - ((window / 2 : Nat) : Int) + i)

/-- Embedding of pd.merge(DataFrame(extended dates), timeseries): with its
default how equal to inner, the merge keeps, in left order, only the dates
that also appear in the observation series, paired with the observed value;
dates without observation are dropped, not filled. Observation dates are
assumed unique, as produced by a date-indexed series. -/
def merge_inner (dates : List Int) (obs : List (Int × Option Rat)) :
    List (Int × Option Rat) :=
  dates.filterMap (fun d => (obs.lookup d).map (fun v => (d, v)))

/-- Embedding of Series.rolling(window, center=True).mean(): the value at
position i is the mean of the window of the given width centred at i
(shifted left for even widths), and is missing unless the window holds the
full window count of non-missing in-range entries (min_periods defaults to
the window size). -/
def rollingMeanCentered (w : Nat) (vals : List (Option Rat)) : List (Option Rat) :=
  (List.range vals.length).map (fun (i : Nat) =>
    let present := (List.range w).filterMap (fun (j : Nat) =>
      let p : Int := (i : Int) - ((w / 2 : Nat) : Int) + j
      if p < 0 then none else (vals.getD p.toNat none))
    if w ≤ present.length then some (present.sum / (present.length : Rat)) else none)

/-- Insertion into a sorted list of rationals. -/
def sortedInsert (x : Rat) : List Rat → List Rat
  | [] => [x]
  | a :: tl => if x ≤ a then x :: a :: tl else a :: sortedInsert x tl

/-- Insertion sort of rationals, the ordering used before interpolation. -/
def sortRats : List Rat → List Rat
  | [] => []
  | a :: tl => sortedInsert a (sortRats tl)

/-- Embedding of Series.quantile([q]).item() on the non-missing subset:
pandas first validates that the percentile lies in the unit interval and
raises ValueError otherwise, even when the series is empty; the quantile of
an empty series is missing; otherwise the linearly interpolated order
statistic at rank q * (n - 1) of the sorted values. -/
def pandasQuantileList (q : Rat) (xs : List Rat) : PyResult (Option Rat) :=
  if ¬ (0 ≤ q ∧ q ≤ 1) then .raised .valueError
  else
    match xs with
    | [] => .ok none
    | _ :: _ =>
      let s := sortRats xs
      let pos : Rat := q * ((s.length : Rat) - 1)
      let lo : Int := ⌊pos⌋
      let lam : Rat := pos - (lo : Rat)
      let a := s.getD lo.toNat 0
      let b := s.getD (lo.toNat + 1) a
      .ok (some (a + lam * (b - a)))

/-- One loop iteration of the calibrator for a given day of year: select the
smoothed values whose date has that folded day of year (by position, the
boolean mask aligning with the merged frame), compute the fraction of
non-missing entries among the selection (for an empty selection the source
divides zero by zero, giving the float NaN, and NaN compared below any
bound is false, so the quantile branch is taken), return missing when the
fraction is below min_percentage, else the quantile of the non-missing
subset. -/
def dayThreshold (percentile minp : Rat) (foldedDoys : List Nat)
    (smoothed : List (Option Rat)) (doy : Nat) : PyResult (Option Rat) :=
  let sel := ((foldedDoys.zip smoothed).filter (fun p => p.1 == doy)).map (fun p => p.2)
  let present := sel.filterMap id
  if sel.length = 0 then pandasQuantileList percentile present
  else if ((present.length : Rat) / (sel.length : Rat)) < minp then .ok none
  else pandasQuantileList percentile present

/-- Runs the loop iterations in order: the first raised error aborts the
whole computation, otherwise all values are collected in order. -/
def collectResults : List (PyResult (Option Rat)) → PyResult (List (Option Rat))
  | [] => .ok []
  | .raised e :: _ => .raised e
  | .ok v :: tl =>
    match collectResults tl with
    | .raised e => .raised e
    | .ok vs => .ok (v :: vs)

/-- Embedding of calculate_percentile_threshold. Dates are day numbers with
day 0 standing for January 1 of the first reference year; the input series
pairs each observed date with its (possibly missing) value. After the eager
validations, the date operations table lists the folded day of year of
every date of the reference period; the extended range is inner-merged with
the observations; the values are smoothed by the centred rolling mean; the
boolean day-of-year masks, indexed like the date table, are applied to the
merged frame positionally, which pandas only accepts when the merged frame
does not outrun the mask index (otherwise the loc indexing raises); finally
the per-day thresholds for days of year 1..365 are collected. -/
def calculate_percentile_threshold (timeseries : List (Int × Option Rat))
    (percentile : Rat) (referencePeriod : Int × Int) (window : Nat)
    (minPercentage : Rat) : PyResult (List (Option Rat)) :=
  if referencePeriod.2 - referencePeriod.1 + 1 ≠ 30 then .raised .valueError
  else if ¬ 0 < window then .raised .valueError
  else if ¬ (0 ≤ minPercentage ∧ minPercentage ≤ 1) then .raised .valueError
  else
    let dateOps := periodYearDoys referencePeriod.1 30
    let foldedDoys := dateOps.map (fun p => foldedDoy p.1 p.2)
    let nDays := dateOps.length
    let merged := merge_inner (daterange_extended 0 ((nDays : Int) - 1) window) timeseries
    let smoothed := rollingMeanCentered window (merged.map (fun p => p.2))
    if foldedDoys.length < smoothed.length then .raised .indexingError
    else collectResults ((List.range 365).map (fun k =>
      dayThreshold percentile minPercentage foldedDoys smoothed (k + 1)))

/-- A dated series covering exactly the reference period beginning at year
y0, with the missing value at every date. -/
def allMissingSeries (y0 : Int) : List (Int × Option Rat) :=
  (List.range (periodYearDoys y0 30).length).map (fun (j : Nat) => ((j : Int), none))

/-- The six comparison operators that number_of is meant to accept. -/
inductive CmpOp where
  | lt
  | le
  | eq
  | ne
  | ge
  | gt
  deriving DecidableEq, Repr

/-- Elementwise meaning of a comparison operator on numbers. -/
def CmpOp.apply : CmpOp → Rat → Rat → Bool
  | .lt, a, b => decide (a < b)
  | .le, a, b => decide (a ≤ b)
  | .eq, a, b => a == b
  | .ne, a, b => a != b
  | .ge, a, b => decide (b ≤ a)
  | .gt, a, b => decide (b < a)

/-- A member of the classinfo argument of Python isinstance: either a genuine
type object, or some other object such as a builtin function. -/
inductive PyClassInfo where
  | typeObject : String → PyClassInfo
  | functionObject : String → PyClassInfo
  deriving DecidableEq, Repr

/-- Python isinstance(obj, members) with a tuple as second argument: Python
first requires every member of the tuple to be a type object and raises
TypeError otherwise, before any membership test of obj happens. The boolean
argument carries the membership answer used when the tuple is well formed. -/
def isinstanceTuple (members : List PyClassInfo) (objMatches : Bool) : PyResult Bool :=
  if members.all (fun m =>
      match m with
      | .typeObject _ => true
      | .functionObject _ => false)
  then .ok objMatches else .raised .typeError

/-- The second argument the source passes to its operator assertion: the
builtin functions operator.lt, le, eq, ne, ge, gt — function objects of the
operator module, not types. -/
def operatorTuple : List PyClassInfo :=
  [.functionObject "lt", .functionObject "le", .functionObject "eq",
   .functionObject "ne", .functionObject "ge", .functionObject "gt"]

/-- Embedding of number_of: the assertions run first; the assertion
isinstance(op, (operator.lt, ..., operator.gt)) is the isinstance call on the
tuple of operator functions; only then come the year-length gate and the
count of entries satisfying the comparison. -/
def number_of (arr : List Rat) (num : Rat) (op : CmpOp) : PyResult (Option Int) :=
  match isinstanceTuple operatorTuple false with
  | .raised e => .raised e
  | .ok _ =>
    if ¬ is_valid_year_length arr then .ok none
    else .ok (some ((arr.filter (fun x => op.apply x num)).length : Int))

/-- Embedding of number_of_fd: frost days, tmin below 0. -/
def number_of_fd (tmin : List Rat) : PyResult (Option Int) :=
  number_of tmin 0 .lt

/-- Embedding of number_of_sd: summer days, tmax above 25. -/
def number_of_sd (tmax : List Rat) : PyResult (Option Int) :=
  number_of tmax 25 .gt

/-- Embedding of number_of_id: icing days, tmax below 0. -/
def number_of_id (tmax : List Rat) : PyResult (Option Int) :=
  number_of tmax 0 .lt

/-- Embedding of number_of_tn: tropical nights, tmin above 20. -/
def number_of_tn (tmin : List Rat) : PyResult (Option Int) :=
  number_of tmin 20 .gt

/-- Embedding of rr10: heavy precipitation days, prec at least 10. -/
def rr10 (prec : List Rat) : PyResult (Option Int) :=
  number_of prec 10 .ge

/-- Embedding of rr20: heavy precipitation days, prec at least 20. -/
def rr20 (prec : List Rat) : PyResult (Option Int) :=
  number_of prec 20 .ge

/-- Embedding of fix_timeseries_for_leapyear, with none for the np.nan the
source returns on an invalid year length. The source concatenates the slice
of the first 60 positions, the element at position 60 repeated twice, and the
slice from position 61 on (positional slicing on a default integer index). -/
def fix_timeseries_for_leapyear (ts : List Rat) : Option (List Rat) :=
  if ¬ is_valid_year_length ts then none
  else some (ts.take 60 ++ (ts.drop 60).take 1 ++ (ts.drop 60).take 1 ++ ts.drop 61)

/-- Elementwise comparison of two pandas Series after reset_index: pandas
raises ValueError when the two ranges have different lengths, otherwise it
compares position by position. -/
def seriesLtSeries (a b : List Rat) : PyResult (List Bool) :=
  if a.length = b.length then .ok (a.zipWith (fun x y => decide (x < y)) b)
  else .raised .valueError

/-- Embedding of number_of_thresholds (the helper behind number_of_cn): gate
on the data year length; when the data is longer than the threshold profile,
expand the profile with fix_timeseries_for_leapyear (when that call yields
np.nan instead of a series, the following reset_index on a float raises
AttributeError); run-length-encode the below-threshold series; take the
nonzero positions of (values and lengths ge 6), which are indices into the
run list; return np.nan unless some of those indices is nonzero (the source
tests the index array itself with any()); otherwise return their sum. -/
def number_of_thresholds (data thresholds : List Rat) : PyResult (Option Int) :=
  if ¬ is_valid_year_length data then .ok none
  else
    let step : PyResult (List Rat) :=
      if thresholds.length < data.length then
        match fix_timeseries_for_leapyear thresholds with
        | none => .raised .attributeError
        | some t => .ok t
      else .ok thresholds
    match step with
    | .raised e => .raised e
    | .ok thr =>
      match seriesLtSeries data thr with
      | .raised e => .raised e
      | .ok cond =>
        let r := rle cond
        let idxs := nonzeroIdx (List.zipWith (fun v l => v && decide (6 ≤ l)) r.1 r.2)
        if idxs.all (fun i => i == 0) then .ok none
        else .ok (some ((idxs.map (fun i => (i : Int))).sum))

/-- Embedding of number_of_cn: the type checks pass, then number_of_thresholds. -/
def number_of_cn (tmin thresholds : List Rat) : PyResult (Option Int) :=
  number_of_thresholds tmin thresholds

/-- The value the claim attributes to the cold-nights index: the sum of the
day positions (indices into the daily series) at which below-threshold runs
of length at least 6 begin, and none exactly when no such run exists. The
day position at which run i begins is the total length of the runs before
it. The thresholds are expanded with fix_timeseries_for_leapyear when the
series is one day longer than the profile. -/
def runStartDaySum (data thresholds : List Rat) : Option Int :=
  let thr := if thresholds.length < data.length
    then (fix_timeseries_for_leapyear thresholds).getD [] else thresholds
  let r := rle (data.zipWith (fun x y => decide (x < y)) thr)
  let runs := r.1.zip r.2
  let starts := (List.range runs.length).map (fun i => ((r.2.take i).sum : Int))
  let qual := ((runs.zip starts).filter (fun p => p.1.1 && decide (6 ≤ p.1.2))).map
    (fun p => p.2)
  if qual.isEmpty then none else some qual.sum

/-- What number_of_cn actually computes, stated as in the amended claim: the
sum of the positions of the qualifying runs inside the run-length encoding
(run indices, not day positions), with the missing sentinel exactly when
that list of run indices is empty or is the single index 0 (that is, when no
below-threshold run of length at least 6 exists, or the only such run is the
very first run of the year). -/
def cnRunIndexModel (data thresholds : List Rat) : Option Int :=
  let thr := if thresholds.length < data.length
    then (fix_timeseries_for_leapyear thresholds).getD [] else thresholds
  let r := rle (data.zipWith (fun x y => decide (x < y)) thr)
  let qual := nonzeroIdx (List.zipWith (fun v l => v && decide (6 ≤ l)) r.1 r.2)
  if qual = [] ∨ qual = [0] then none
  else some ((qual.map (fun i => (i : Int))).sum)

/-- Embedding of growing_season_length. The per-day flag and per-day run
length arrays come from np.repeat(values, lengths) and np.repeat(lengths,
lengths). The end selection keeps every qualifying day position after the
July boundary; the source then truth-tests that numpy array: an empty array
is falsy, a one-element array has the truth value of its element, and an
array with more elements raises ValueError (ambiguous truth value). -/
def growing_season_length (tmean : List Rat) : PyResult (Option Int) :=
  if ¬ is_valid_year_length tmean then .ok none
  else
    let r1 := rle (tmean.map (fun x => decide (5 < x)))
    let runs1 := r1.1.zip r1.2
    let valuesD1 := (runs1.map (fun p => List.replicate p.2 p.1)).flatten
    let lengthsD1 := (runs1.map (fun p => List.replicate p.2 p.2)).flatten
    let startArr := nonzeroIdx (List.zipWith (fun v l => v && decide (6 ≤ l)) valuesD1 lengthsD1)
    match startArr with
    | [] => .ok (some 0)
    | start :: _ =>
      let jday : Nat := if tmean.length = 366 then 183 else 182
      let r2 := rle (tmean.map (fun x => decide (x < 5)))
      let runs2 := r2.1.zip r2.2
      let valuesD2 := (runs2.map (fun p => List.replicate p.2 p.1)).flatten
      let lengthsD2 := (runs2.map (fun p => List.replicate p.2 p.2)).flatten
      let endArr := nonzeroIdx (List.zipWith (fun v l => v && decide (6 ≤ l)) valuesD2 lengthsD2)
      match endArr with
      | [] => .ok (some 0)
      | _ :: _ =>
        match endArr.filter (fun p => decide (jday < p)) with
        | [] => .ok (some 0)
        | [p] =>
          if p = 0 then .ok (some 0)
          else .ok (some ((p : Int) - (start : Int) + 1))
        | _ => .raised .valueError

theorem rleAux_eq_nil_iff {α : Type} [DecidableEq α] (l : List α) :
    rleAux l = [] ↔ l = [] := by
  cases l with
  | nil => simp [rleAux]
  | cons a tl =>
    simp only [rleAux]
    cases h : rleAux tl with
    | nil => simp [rleStep]
    | cons p rest =>
      obtain ⟨b, n⟩ := p
      by_cases hab : a = b <;> simp [rleStep, hab]

theorem rleAux_decode {α : Type} [DecidableEq α] (l : List α) :
    rleDecode (rleAux l) = l := by
  induction l with
  | nil => rfl
  | cons a tl ih =>
    simp only [rleAux]
    cases h : rleAux tl with
    | nil =>
      have htl : tl = [] := (rleAux_eq_nil_iff tl).mp h
      simp [htl, rleStep, rleDecode]
    | cons p rest =>
      obtain ⟨b, n⟩ := p
      rw [h] at ih
      by_cases hab : a = b
      · subst hab
        rw [rleStep, if_pos rfl]
        simp only [rleDecode, List.map_cons, List.flatten_cons] at ih ⊢
        rw [List.replicate_succ, List.cons_append, ih]
      · rw [rleStep, if_neg hab]
        simp only [rleDecode, List.map_cons, List.flatten_cons] at ih ⊢
        rw [ih]
        simp [List.replicate]

theorem rleAux_sum_lengths {α : Type} [DecidableEq α] (l : List α) :
    ((rleAux l).map Prod.snd).sum = l.length := by
  induction l with
  | nil => rfl
  | cons a tl ih =>
    simp only [rleAux]
    cases h : rleAux tl with
    | nil =>
      have htl : tl = [] := (rleAux_eq_nil_iff tl).mp h
      simp [htl, rleStep]
    | cons p rest =>
      obtain ⟨b, n⟩ := p
      rw [h] at ih
      simp only [List.map_cons, List.sum_cons] at ih
      by_cases hab : a = b
      · subst hab
        rw [rleStep, if_pos rfl]
        simp only [List.map_cons, List.sum_cons, List.length_cons]
        omega
      · rw [rleStep, if_neg hab]
        simp only [List.map_cons, List.sum_cons, List.length_cons]
        omega

theorem zip_map_fst_snd_eq {α β : Type} :
    ∀ (l : List (α × β)), (l.map Prod.fst).zip (l.map Prod.snd) = l := by
  intro l
  induction l with
  | nil => rfl
  | cons p tl ih => simp [ih]

/-- C1: round-trip law of the run-length encoder rle: for every finite input
sequence, concatenating each encoded value repeated by its run length
reconstructs the input exactly, and the run lengths sum to the input length. -/
theorem C1_rle_roundtrip {α : Type} [DecidableEq α] (arr : List α) :
    ((((rle arr).1.zip (rle arr).2).map (fun p => List.replicate p.2 p.1)).flatten = arr)
    ∧ (rle arr).2.sum = arr.length := by
  constructor
  · have hz : ((rle arr).1.zip (rle arr).2) = rleAux arr := by
      simp only [rle, List.unzip_fst, List.unzip_snd]
      exact zip_map_fst_snd_eq (rleAux arr)
    rw [hz]
    exact rleAux_decode arr
  · have hs : (rle arr).2 = (rleAux arr).map Prod.snd := by
      simp [rle, List.unzip_snd]
    rw [hs]
    exact rleAux_sum_lengths arr

/-- C2: evaluation of the consecutive-run indices at the failing inputs. On
the specification's own CDD scenario (a 366-day precipitation series whose
only dry run of length at least 7 starts at day 50), consecutive_dd raises
TypeError because the Python list of run lengths is indexed with the tuple
returned by numpy nonzero; and on an all-false year consecutive_fd raises
ValueError from np.max over the empty selection instead of returning 0;
on an all-frost year, where the selection is nonempty, consecutive_fd does
return the longest (here the whole-year) run as the claim says. -/
theorem C2_code_bug_eval :
    consecutive_dd cddScenarioPrec = .raised .typeError
    ∧ consecutive_fd noFrostYear = .raised .valueError
    ∧ consecutive_fd (List.replicate 365 (-1 : Rat)) = .ok (some 365) := by
  refine ⟨rfl, ?_, ?_⟩ <;> decide

/-- C10: for every input triple whatsoever, number_of raises TypeError,
because its operator-validation assertion passes the operator functions
(not types) as the second argument of isinstance, and that assertion runs
before the year-length gate and the count; consequently none of the six
count-based index functions ever returns a count or the missing sentinel. -/
theorem C10_number_of_always_typeerror (arr : List Rat) (num : Rat) (op : CmpOp) :
    number_of arr num op = .raised .typeError
    ∧ number_of_fd arr = .raised .typeError
    ∧ number_of_sd arr = .raised .typeError
    ∧ number_of_id arr = .raised .typeError
    ∧ number_of_tn arr = .raised .typeError
    ∧ rr10 arr = .raised .typeError
    ∧ rr20 arr = .raised .typeError :=
  ⟨rfl, rfl, rfl, rfl, rfl, rfl, rfl⟩

/-- C6: evaluation at the failing input of the count-index claim. On the
365-day all-frost series the claim expects FD = 365, but number_of_fd raises
TypeError out of the operator isinstance assertion; the second conjunct
records that 365 entries of the input do satisfy the frost condition. -/
theorem C6_code_bug_eval :
    number_of_fd (List.replicate 365 (-1 : Rat)) = .raised .typeError
    ∧ (List.replicate 365 (-1 : Rat)).countP (fun x => decide (x < 0)) = 365 := by
  constructor
  · rfl
  · decide

/-- C7: evaluation at a series of invalid year length (a single day). The
run-based, degree-day, threshold and growing-season indices do return the
missing sentinel, but each count-based index raises TypeError from the
operator isinstance assertion, which runs before the year-length gate. -/
theorem C7_code_bug_eval :
    number_of_fd [(0 : Rat)] = .raised .typeError
    ∧ number_of_sd [(0 : Rat)] = .raised .typeError
    ∧ number_of_id [(0 : Rat)] = .raised .typeError
    ∧ number_of_tn [(0 : Rat)] = .raised .typeError
    ∧ rr10 [(0 : Rat)] = .raised .typeError
    ∧ rr20 [(0 : Rat)] = .raised .typeError
    ∧ consecutive_fd [(0 : Rat)] = .ok none
    ∧ consecutive_sd [(0 : Rat)] = .ok none
    ∧ consecutive_dd [(0 : Rat)] = .ok none
    ∧ sum_of_hdd [(0 : Rat)] = .ok none
    ∧ number_of_cn [(0 : Rat)] (List.replicate 365 (0 : Rat)) = .ok none
    ∧ growing_season_length [(0 : Rat)] = .ok none := by
  refine ⟨rfl, rfl, rfl, rfl, rfl, rfl, ?_, ?_, ?_, ?_, ?_, ?_⟩ <;> decide

/-- C4: evaluation of growing_season_length at the failing input. With two
qualifying cold runs after the boundary (first qualifying day position 200,
so the claim expects 200 - 0 + 1 = 201), the truth test of the multi-element
end array raises ValueError. When exactly one qualifying day position lies
after the boundary (position 183), the code does return end - start + 1. -/
theorem C4_code_bug_eval :
    growing_season_length gslTwoEndRuns = .raised .valueError
    ∧ growing_season_length gslStraddleRun = .ok (some 184) := by
  constructor
  · decide
  · decide

/-- C5 counterexample: on the profile 0, 1, ..., 364 the claim says entry 60
of the expansion equals the original entry 59, but fix_timeseries_for_leapyear
duplicates the element at position 60, so entry 60 of its result is 60. -/
theorem C5_counterexample :
    ((fix_timeseries_for_leapyear rangeProfile).getD []).getD 60 0
      ≠ rangeProfile.getD 59 0 := by
  decide

/-- C5 amended: on a 365-entry profile, fix_timeseries_for_leapyear returns a
366-entry sequence whose entries 0..59 equal the original entries 0..59,
whose entries 60 and 61 both equal the original entry 60, and whose entries
62..365 equal the original entries 61..364. -/
theorem C5_amended (ts : List Rat) (h : ts.length = 365) :
    (fix_timeseries_for_leapyear ts).isSome = true
    ∧ ((fix_timeseries_for_leapyear ts).getD []).length = 366
    ∧ (∀ i : Nat, i ≤ 59 →
        ((fix_timeseries_for_leapyear ts).getD []).getD i 0 = ts.getD i 0)
    ∧ ((fix_timeseries_for_leapyear ts).getD []).getD 60 0 = ts.getD 60 0
    ∧ ((fix_timeseries_for_leapyear ts).getD []).getD 61 0 = ts.getD 60 0
    ∧ (∀ i : Nat, 62 ≤ i → i ≤ 365 →
        ((fix_timeseries_for_leapyear ts).getD []).getD i 0 = ts.getD (i - 1) 0) := by
  have hvalid : is_valid_year_length ts = true := by
    simp [is_valid_year_length, h]
  have hfix : fix_timeseries_for_leapyear ts
      = some (ts.take 60 ++ ((ts.drop 60).take 1 ++ ((ts.drop 60).take 1 ++ ts.drop 61))) := by
    simp [fix_timeseries_for_leapyear, hvalid]
  have hlen₁ : (ts.take 60).length = 60 := by
    simp [List.length_take, h]
  have hlenm : ((ts.drop 60).take 1).length = 1 := by
    simp [List.length_take, List.length_drop, h]
  refine ⟨by simp [hfix], ?_, ?_, ?_, ?_, ?_⟩
  · simp [hfix, List.length_append, hlen₁, hlenm, List.length_drop, h]
  · intro i hi
    simp only [hfix, Option.getD_some]
    rw [List.getD_eq_getElem?_getD, List.getD_eq_getElem?_getD,
      List.getElem?_append, hlen₁]
    rw [if_pos (by omega)]
    rw [List.getElem?_take, if_pos (by omega)]
  · simp only [hfix, Option.getD_some]
    rw [List.getD_eq_getElem?_getD, List.getD_eq_getElem?_getD,
      List.getElem?_append_right (by omega : (ts.take 60).length ≤ 60)]
    rw [hlen₁]
    rw [List.getElem?_append, hlenm]
    rw [if_pos (by omega)]
    rw [List.getElem?_take, if_pos (by omega), List.getElem?_drop]
  · simp only [hfix, Option.getD_some]
    rw [List.getD_eq_getElem?_getD, List.getD_eq_getElem?_getD,
      List.getElem?_append_right (by omega : (ts.take 60).length ≤ 61)]
    rw [hlen₁]
    rw [List.getElem?_append_right (by omega : ((ts.drop 60).take 1).length ≤ 61 - 60)]
    rw [hlenm]
    rw [List.getElem?_append, hlenm]
    rw [if_pos (by omega)]
    rw [List.getElem?_take, if_pos (by omega), List.getElem?_drop]
  · intro i hi₁ hi₂
    simp only [hfix, Option.getD_some]
    rw [List.getD_eq_getElem?_getD, List.getD_eq_getElem?_getD,
      List.getElem?_append, hlen₁, if_neg (by omega)]
    rw [List.getElem?_append, hlenm, if_neg (by omega)]
    rw [List.getElem?_append, hlenm, if_neg (by omega)]
    rw [List.getElem?_drop]
    have harith : 61 + (i - 60 - 1 - 1) = i - 1 := by omega
    rw [harith]

/-- C5 amended, witnessed at the profile 0, 1, ..., 364: entry 61 of the
expansion equals the original entry 60. -/
theorem C5_amended_witness :
    rangeProfile.length = 365
    ∧ ((fix_timeseries_for_leapyear rangeProfile).getD []).getD 61 0
        = rangeProfile.getD 60 0 :=
  ⟨by decide, (C5_amended rangeProfile (by decide)).2.2.2.2.1⟩

theorem nonzeroIdx_nodup (mask : List Bool) : (nonzeroIdx mask).Nodup := by
  have h₁ : List.Sublist (mask.enum.filter (fun p => p.2)) mask.enum :=
    List.filter_sublist _
  have h₂ : List.Sublist (nonzeroIdx mask) (mask.enum.map (fun p => p.1)) :=
    List.Sublist.map _ h₁
  have h₃ : mask.enum.map (fun p => p.1) = List.range mask.length := by
    simpa using List.enum_map_fst mask
  rw [h₃] at h₂
  exact h₂.nodup (List.nodup_range _)

theorem all_eq_zero_iff_nil_or_zero {l : List Nat} (hnd : l.Nodup) :
    l.all (fun i => i == 0) = true ↔ l = [] ∨ l = [0] := by
  constructor
  · intro hall
    simp only [List.all_eq_true, beq_iff_eq] at hall
    match l, hnd, hall with
    | [], _, _ => exact Or.inl rfl
    | [a], _, hall =>
      have ha : a = 0 := hall a (by simp)
      subst ha
      exact Or.inr rfl
    | a :: b :: tl, hnd, hall =>
      exfalso
      have ha : a = 0 := hall a (by simp)
      have hb : b = 0 := hall b (by simp)
      have : a ∉ b :: tl := (List.nodup_cons.mp hnd).1
      exact this (by simp [ha, hb])
  · intro h
    rcases h with h | h <;> subst h <;> rfl

theorem fix_eq_of_365 (ts : List Rat) (h : ts.length = 365) :
    fix_timeseries_for_leapyear ts
      = some (ts.take 60 ++ ((ts.drop 60).take 1 ++ ((ts.drop 60).take 1 ++ ts.drop 61))) := by
  simp [fix_timeseries_for_leapyear, is_valid_year_length, h]

theorem fix_len_of_365 (ts : List Rat) (h : ts.length = 365) :
    ((fix_timeseries_for_leapyear ts).getD []).length = 366 := by
  rw [fix_eq_of_365 ts h]
  simp only [Option.getD_some, List.length_append, List.length_take,
    List.length_drop, h]
  omega

/-- C3 counterexample: minimum-temperature series with one qualifying
below-threshold run beginning at day position 6 (run index 1 in the run
encoding). The claim predicts result 6, the sum of the day positions; the
code does not return 6 (it returns the run-index sum 1). -/
theorem C3_counterexample :
    runStartDaySum cnSixAtSix zeroProfile = some 6
    ∧ number_of_cn cnSixAtSix zeroProfile ≠ .ok (some 6) := by
  constructor
  · decide
  · decide

/-- C3 amended: for a series and profile of matching valid lengths, or a
366-day series with a 365-entry profile (expanded via
fix_timeseries_for_leapyear), number_of_cn returns the sum of the run
indices (positions within the run-length encoding) of the below-threshold
runs of length at least 6, and the missing sentinel exactly when that index
list is empty or is the single run index 0. -/
theorem C3_amended (data thresholds : List Rat)
    (h : data.length = 365 ∧ thresholds.length = 365
       ∨ data.length = 366 ∧ thresholds.length = 366
       ∨ data.length = 366 ∧ thresholds.length = 365) :
    number_of_cn data thresholds = .ok (cnRunIndexModel data thresholds) := by
  have key : ∀ (thr : List Rat), data.length = thr.length →
      ((match seriesLtSeries data thr with
        | .raised e => .raised e
        | .ok cond =>
          let r := rle cond
          let idxs := nonzeroIdx (List.zipWith (fun v l => v && decide (6 ≤ l)) r.1 r.2)
          if idxs.all (fun i => i == 0) then PyResult.ok (none : Option Int)
          else .ok (some ((idxs.map (fun i => (i : Int))).sum))) : PyResult (Option Int))
      = .ok (let r := rle (data.zipWith (fun x y => decide (x < y)) thr)
             let qual := nonzeroIdx (List.zipWith (fun v l => v && decide (6 ≤ l)) r.1 r.2)
             if qual = [] ∨ qual = [0] then (none : Option Int)
             else some ((qual.map (fun i => (i : Int))).sum)) := by
    intro thr hlen
    rw [seriesLtSeries, if_pos hlen]
    show (if (nonzeroIdx (List.zipWith (fun v l => v && decide (6 ≤ l))
          (rle (data.zipWith (fun x y => decide (x < y)) thr)).1
          (rle (data.zipWith (fun x y => decide (x < y)) thr)).2)).all (fun i => i == 0)
        then PyResult.ok (none : Option Int)
        else .ok (some (((nonzeroIdx (List.zipWith (fun v l => v && decide (6 ≤ l))
          (rle (data.zipWith (fun x y => decide (x < y)) thr)).1
          (rle (data.zipWith (fun x y => decide (x < y)) thr)).2)).map
            (fun i => (i : Int))).sum))) = _
    have hnd := nonzeroIdx_nodup
      (List.zipWith (fun v l => v && decide (6 ≤ l))
        (rle (data.zipWith (fun x y => decide (x < y)) thr)).1
        (rle (data.zipWith (fun x y => decide (x < y)) thr)).2)
    by_cases hz : (nonzeroIdx (List.zipWith (fun v l => v && decide (6 ≤ l))
        (rle (data.zipWith (fun x y => decide (x < y)) thr)).1
        (rle (data.zipWith (fun x y => decide (x < y)) thr)).2)).all (fun i => i == 0)
        = true
    · rw [if_pos hz]
      show _ = PyResult.ok (if _ ∨ _ then (none : Option Int) else _)
      rw [if_pos ((all_eq_zero_iff_nil_or_zero hnd).mp hz)]
    · rw [if_neg hz]
      show _ = PyResult.ok (if _ ∨ _ then (none : Option Int) else _)
      rw [if_neg (fun hc => hz ((all_eq_zero_iff_nil_or_zero hnd).mpr hc))]
  rcases h with ⟨h1, h2⟩ | ⟨h1, h2⟩ | ⟨h1, h2⟩
  · have hvalid : is_valid_year_length data = true := by
      simp [is_valid_year_length, h1]
    have hlt : ¬ thresholds.length < data.length := by omega
    rw [number_of_cn, number_of_thresholds, cnRunIndexModel]
    rw [if_neg (by simp [hvalid])]
    simp only [if_neg hlt]
    exact key thresholds (by omega)
  · have hvalid : is_valid_year_length data = true := by
      simp [is_valid_year_length, h1]
    have hlt : ¬ thresholds.length < data.length := by omega
    rw [number_of_cn, number_of_thresholds, cnRunIndexModel]
    rw [if_neg (by simp [hvalid])]
    simp only [if_neg hlt]
    exact key thresholds (by omega)
  · have hvalid : is_valid_year_length data = true := by
      simp [is_valid_year_length, h1]
    have hlt : thresholds.length < data.length := by omega
    rw [number_of_cn, number_of_thresholds, cnRunIndexModel]
    rw [if_neg (by simp [hvalid])]
    simp only [if_pos hlt]
    rw [fix_eq_of_365 thresholds h2]
    have hlen : data.length
        = ((fix_timeseries_for_leapyear thresholds).getD []).length := by
      rw [fix_len_of_365 thresholds h2, h1]
    rw [fix_eq_of_365 thresholds h2] at hlen
    exact key _ hlen

/-- C3 amended, witnessed at the cold-nights input with a single qualifying
run at run index 1. -/
theorem C3_amended_witness :
    (cnSixAtSix.length = 365 ∧ zeroProfile.length = 365
       ∨ cnSixAtSix.length = 366 ∧ zeroProfile.length = 366
       ∨ cnSixAtSix.length = 366 ∧ zeroProfile.length = 365)
    ∧ number_of_cn cnSixAtSix zeroProfile
        = .ok (cnRunIndexModel cnSixAtSix zeroProfile) :=
  ⟨by decide, C3_amended cnSixAtSix zeroProfile (by decide)⟩

/-- C8 counterexample: the extended range holds four dates (day numbers -1,
0, 1, 2 for start 0, end 1, window 2), but the observations only cover days
0 and 1, and the merge keeps exactly those two rows: the default inner
merge drops the uncovered dates instead of keeping them with a missing
value, so the joined series does not have one entry per date of the
extended range. -/
theorem C8_counterexample :
    (merge_inner (daterange_extended 0 1 2)
        [((0 : Int), some (1 : Rat)), ((1 : Int), some (2 : Rat))]).length
      ≠ (daterange_extended 0 1 2).length := by
  decide

/-- C8 amended: the merge of the extended date range with the observation
series (whose dates are unique) is an inner join: it contains, in the order
of the extended range, exactly those dates at which an observation exists,
each paired with the observed value; dates without observation are dropped
rather than kept with a missing value. -/
theorem C8_amended (dates : List Int) (obs : List (Int × Option Rat)) :
    (merge_inner dates obs).map (fun p => p.1)
        = dates.filter (fun d => (obs.lookup d).isSome)
    ∧ ∀ p ∈ merge_inner dates obs, obs.lookup p.1 = some p.2 := by
  induction dates with
  | nil =>
    refine ⟨rfl, ?_⟩
    intro p hp
    simp [merge_inner] at hp
  | cons d tl ih =>
    constructor
    · rw [merge_inner, List.filterMap_cons, List.filter_cons]
      rw [merge_inner] at ih
      cases h : obs.lookup d with
      | none => simpa [h] using ih.1
      | some v => simpa [h] using ih.1
    · intro p hp
      rw [merge_inner, List.filterMap_cons] at hp
      rw [merge_inner] at ih
      cases h : obs.lookup d with
      | none =>
        rw [h] at hp
        exact ih.2 p hp
      | some v =>
        rw [h] at hp
        rcases List.mem_cons.mp hp with heq | hmem
        · rw [heq]
          exact h
        · exact ih.2 p hmem

/-- C8 amended, witnessed at the four-date extended range with observations
at days 0 and 1 only. -/
theorem C8_amended_witness :
    (merge_inner (daterange_extended 0 1 2)
        [((0 : Int), some (1 : Rat)), ((1 : Int), some (2 : Rat))]).map (fun p => p.1)
      = (daterange_extended 0 1 2).filter
          (fun d => (([((0 : Int), some (1 : Rat)), ((1 : Int), some (2 : Rat))]).lookup d).isSome) :=
  (C8_amended (daterange_extended 0 1 2)
    [((0 : Int), some (1 : Rat)), ((1 : Int), some (2 : Rat))]).1

theorem filterMapCongr {α β : Type} {f g : α → Option β} :
    ∀ {l : List α}, (∀ a ∈ l, f a = g a) → l.filterMap f = l.filterMap g := by
  intro l
  induction l with
  | nil => intro h; rfl
  | cons a tl ih =>
    intro h
    rw [List.filterMap_cons, List.filterMap_cons, h a (by simp),
      ih (fun b hb => h b (by simp [hb]))]

theorem filterMapSomeComp {α β : Type} (f : α → β) :
    ∀ (l : List α), l.filterMap (fun a => some (f a)) = l.map f := by
  intro l
  induction l with
  | nil => rfl
  | cons a tl ih => rw [List.filterMap_cons, List.map_cons, ih]

theorem filterMapNone {α β : Type} (f : α → Option β) :
    ∀ (l : List α), (∀ a ∈ l, f a = none) → l.filterMap f = [] := by
  intro l
  induction l with
  | nil => intro h; rfl
  | cons a tl ih =>
    intro h
    rw [List.filterMap_cons, h a (by simp), ih (fun b hb => h b (by simp [hb]))]

theorem mapConstEq {α β : Type} (c : β) :
    ∀ (l : List α), l.map (fun _ => c) = List.replicate l.length c := by
  intro l
  induction l with
  | nil => rfl
  | cons a tl ih => rw [List.map_cons, ih, List.length_cons, List.replicate_succ]

theorem getD_replicate_none (n m : Nat) :
    (List.replicate n (none : Option Rat)).getD m none = none := by
  rw [List.getD_eq_getElem?_getD, List.getElem?_replicate]
  by_cases h : m < n <;> simp [h]

theorem lookup_range_const (n : Nat) :
    ∀ (c d : Int),
      List.lookup d ((List.range n).map (fun (j : Nat) => (((j : Int) + c), (none : Option Rat))))
        = if c ≤ d ∧ d < c + n then some none else none := by
  induction n with
  | zero =>
    intro c d
    rw [if_neg (by omega)]
    rfl
  | succ m ih =>
    intro c d
    rw [List.range_succ_eq_map, List.map_cons, List.map_map]
    have hmap : (List.range m).map ((fun (j : Nat) => (((j : Int) + c), (none : Option Rat))) ∘ Nat.succ)
        = (List.range m).map (fun (j : Nat) => (((j : Int) + (c + 1)), (none : Option Rat))) := by
      apply List.map_congr_left
      intro a ha
      simp only [Function.comp_apply]
      congr 1
      push_cast
      ring
    rw [hmap]
    simp only [Nat.cast_zero, zero_add]
    rw [List.lookup_cons]
    by_cases hdc : d = c
    · have hb : (d == c) = true := beq_iff_eq.mpr hdc
      rw [hb, if_pos (by omega)]
    · have hb : (d == c) = false := beq_eq_false_iff_ne.mpr hdc
      rw [hb, ih (c + 1) d]
      by_cases hin : c + 1 ≤ d ∧ d < c + 1 + m
      · rw [if_pos hin, if_pos (by omega)]
      · rw [if_neg hin, if_neg (by omega)]

theorem lookup_range_zero (n : Nat) (d : Int) :
    List.lookup d ((List.range n).map (fun (j : Nat) => ((j : Int), (none : Option Rat))))
      = if 0 ≤ d ∧ d < n then some none else none := by
  have heq : ((List.range n).map (fun (j : Nat) => (((j : Int) + 0), (none : Option Rat))))
      = (List.range n).map (fun (j : Nat) => ((j : Int), (none : Option Rat))) := by
    apply List.map_congr_left
    intro a ha
    norm_num
  have h := lookup_range_const n 0 d
  rw [heq] at h
  rw [h]
  by_cases hin : 0 ≤ d ∧ d < (0 : Int) + n
  · rw [if_pos hin, if_pos (by omega)]
  · rw [if_neg hin, if_neg (by omega)]

theorem merge_base : ∀ (n m : Nat), n ≤ m →
    (List.range n).filterMap (fun (i : Nat) =>
        if 0 ≤ (i : Int) ∧ (i : Int) < (m : Int)
        then some (((i : Int)), (none : Option Rat)) else none)
      = (List.range n).map (fun (j : Nat) => ((j : Int), (none : Option Rat))) := by
  intro n
  induction n with
  | zero => intro m h; rfl
  | succ p ih =>
    intro m h
    rw [List.range_succ, List.filterMap_append, List.map_append, ih m (by omega)]
    have hc : (0 : Int) ≤ (p : Int) ∧ (p : Int) < (m : Int) := by
      constructor
      · omega
      · omega
    have hpm : p < m := by omega
    simp [List.filterMap_cons, hc, hpm]

theorem merge_chunk_right : ∀ (k n : Nat),
    (List.range (n + k)).filterMap (fun (i : Nat) =>
        if 0 ≤ (i : Int) ∧ (i : Int) < (n : Int)
        then some (((i : Int)), (none : Option Rat)) else none)
      = (List.range n).map (fun (j : Nat) => ((j : Int), (none : Option Rat))) := by
  intro k
  induction k with
  | zero =>
    intro n
    rw [Nat.add_zero]
    exact merge_base n n le_rfl
  | succ p ih =>
    intro n
    rw [show n + (p + 1) = (n + p) + 1 from by omega]
    rw [List.range_succ, List.filterMap_append]
    rw [ih n]
    have hc : ¬ (0 ≤ ((n + p : Nat) : Int) ∧ ((n + p : Nat) : Int) < (n : Int)) := by
      push_neg
      intro h
      omega
    simp [List.filterMap_cons, hc]

theorem merge_inner_range (k n : Nat) :
    merge_inner ((List.range (n + 2 * k)).map (fun (i : Nat) => (i : Int) - (k : Int)))
      ((List.range n).map (fun (j : Nat) => ((j : Int), (none : Option Rat))))
      = (List.range n).map (fun (j : Nat) => ((j : Int), (none : Option Rat))) := by
  rw [merge_inner, List.filterMap_map]
  have hcongr : ∀ i ∈ List.range (n + 2 * k),
      ((fun d => (List.lookup d ((List.range n).map
          (fun (j : Nat) => ((j : Int), (none : Option Rat))))).map (fun v => (d, v)))
        ∘ (fun (i : Nat) => (i : Int) - (k : Int))) i
      = if 0 ≤ (i : Int) - (k : Int) ∧ (i : Int) - (k : Int) < (n : Int)
        then some ((((i : Int) - (k : Int))), (none : Option Rat)) else none := by
    intro i hi
    simp only [Function.comp_apply]
    rw [lookup_range_zero]
    by_cases hin : 0 ≤ (i : Int) - (k : Int) ∧ (i : Int) - (k : Int) < (n : Int)
    · rw [if_pos hin, if_pos hin]
      rfl
    · rw [if_neg hin, if_neg hin]
      rfl
  rw [filterMapCongr hcongr]
  rw [show n + 2 * k = k + (n + k) from by ring]
  rw [List.range_add, List.filterMap_append]
  have hleft : (List.range k).filterMap (fun (i : Nat) =>
      if 0 ≤ (i : Int) - (k : Int) ∧ (i : Int) - (k : Int) < (n : Int)
      then some ((((i : Int) - (k : Int))), (none : Option Rat)) else none) = [] := by
    apply filterMapNone
    intro a ha
    rw [if_neg]
    push_neg
    intro h
    have := List.mem_range.mp ha
    omega
  rw [hleft, List.nil_append, List.filterMap_map]
  have hshift : ∀ i ∈ List.range (n + k),
      ((fun (i : Nat) =>
        if 0 ≤ (i : Int) - (k : Int) ∧ (i : Int) - (k : Int) < (n : Int)
        then some ((((i : Int) - (k : Int))), (none : Option Rat)) else none)
        ∘ (fun x => k + x)) i
      = if 0 ≤ (i : Int) ∧ (i : Int) < (n : Int)
        then some (((i : Int)), (none : Option Rat)) else none := by
    intro i hi
    have hcast : ((k + i : Nat) : Int) - (k : Int) = (i : Int) := by
      push_cast
      ring
    simp only [Function.comp_apply, hcast]
  rw [filterMapCongr hshift]
  exact merge_chunk_right k n

theorem rolling_none (w n : Nat) (hw : 0 < w) :
    rollingMeanCentered w (List.replicate n (none : Option Rat))
      = List.replicate n none := by
  rw [rollingMeanCentered, List.length_replicate]
  have hpt : ∀ i ∈ List.range n,
      (fun (i : Nat) =>
        let present := (List.range w).filterMap (fun (j : Nat) =>
          let p : Int := (i : Int) - ((w / 2 : Nat) : Int) + j
          if p < 0 then none else ((List.replicate n (none : Option Rat)).getD p.toNat none))
        if w ≤ present.length then some (present.sum / (present.length : Rat)) else none) i
      = (none : Option Rat) := by
    intro i hi
    have hpres : (List.range w).filterMap (fun (j : Nat) =>
        let p : Int := (i : Int) - ((w / 2 : Nat) : Int) + j
        if p < 0 then none
        else ((List.replicate n (none : Option Rat)).getD p.toNat none)) = [] := by
      apply filterMapNone
      intro a ha
      by_cases hp : ((i : Int) - ((w / 2 : Nat) : Int) + a) < 0
      · simp only [hp, if_true]
      · simp only [hp, if_false]
        exact getD_replicate_none n _
    simp only [hpres, List.length_nil]
    rw [if_neg (by omega)]
  rw [List.map_congr_left hpt]
  rw [mapConstEq, List.length_range]

theorem snd_mem_zip_replicate {α : Type} (c : Option Rat) :
    ∀ (l : List α) (n : Nat) (p : α × Option Rat),
      p ∈ l.zip (List.replicate n c) → p.2 = c := by
  intro l
  induction l with
  | nil =>
    intro n p hp
    simp [List.zip] at hp
  | cons a tl ih =>
    intro n p hp
    cases n with
    | zero => simp [List.zip] at hp
    | succ m =>
      rw [List.replicate_succ] at hp
      rcases List.mem_cons.mp hp with h | h
      · rw [h]
      · exact ih m p h

theorem dayThreshold_all_missing (pct minp : Rat) (fd : List Nat) (n doy : Nat)
    (h1 : 0 ≤ pct) (h2 : pct ≤ 1) :
    dayThreshold pct minp fd (List.replicate n none) doy = .ok none := by
  rw [dayThreshold]
  have hsel : ∀ x ∈ ((fd.zip (List.replicate n (none : Option Rat))).filter
      (fun p => p.1 == doy)).map (fun p => p.2), x = (none : Option Rat) := by
    intro x hx
    obtain ⟨p, hp, hpx⟩ := List.mem_map.mp hx
    have hpz := (List.mem_filter.mp hp).1
    rw [← hpx]
    exact snd_mem_zip_replicate none fd n p hpz
  have hpres : (((fd.zip (List.replicate n (none : Option Rat))).filter
      (fun p => p.1 == doy)).map (fun p => p.2)).filterMap id = [] := by
    apply filterMapNone
    intro a ha
    rw [hsel a ha]
    rfl
  have hquant : pandasQuantileList pct ([] : List Rat) = .ok none := by
    rw [pandasQuantileList, if_neg (not_not_intro ⟨h1, h2⟩)]
  by_cases hlen : (((fd.zip (List.replicate n (none : Option Rat))).filter
      (fun p => p.1 == doy)).map (fun p => p.2)).length = 0
  · rw [if_pos hlen, hpres, hquant]
  · rw [if_neg hlen, hpres]
    simp only [List.length_nil, Nat.cast_zero, zero_div]
    by_cases hm : (0 : Rat) < minp
    · rw [if_pos hm]
    · rw [if_neg hm, hquant]

theorem collectResults_const : ∀ (l : List Nat) (f : Nat → PyResult (Option Rat)),
    (∀ a ∈ l, f a = .ok none) →
    collectResults (l.map f) = .ok (List.replicate l.length none) := by
  intro l
  induction l with
  | nil => intro f h; rfl
  | cons a tl ih =>
    intro f h
    rw [List.map_cons, h a (by simp), collectResults,
      ih f (fun b hb => h b (by simp [hb])), List.length_cons, List.replicate_succ]

/-- C9: on a dated series covering the 30-year reference period starting at
any year y0 with every value missing, and any percentile in the unit
interval (the domain the quantile function accepts), positive window and
min_percentage in the unit interval, the calibrator returns a profile of
exactly 365 entries, all missing. -/
theorem C9_all_missing_profile (y0 : Int) (percentile minp : Rat) (w : Nat)
    (h1 : 0 ≤ percentile) (h2 : percentile ≤ 1) (h3 : 0 < w)
    (h4 : 0 ≤ minp) (h5 : minp ≤ 1) :
    calculate_percentile_threshold (allMissingSeries y0) percentile (y0, y0 + 29) w minp
      = .ok (List.replicate 365 none) := by
  rw [calculate_percentile_threshold]
  rw [show ((y0, y0 + 29) : Int × Int).1 = y0 from rfl,
    show ((y0, y0 + 29) : Int × Int).2 = y0 + 29 from rfl]
  rw [if_neg (by omega), if_neg (not_not_intro h3), if_neg (not_not_intro ⟨h4, h5⟩)]
  simp only []
  have hmerge : merge_inner
      (daterange_extended 0 (((periodYearDoys y0 30).length : Int) - 1) w)
      (allMissingSeries y0)
      = (List.range (periodYearDoys y0 30).length).map
          (fun (j : Nat) => ((j : Int), (none : Option Rat))) := by
    rw [allMissingSeries, daterange_extended]
    have hlen : (((periodYearDoys y0 30).length : Int) - 1 - 0 + 1
        + 2 * ((w / 2 : Nat) : Int)).toNat
        = (periodYearDoys y0 30).length + 2 * (w / 2) := by omega
    rw [hlen]
    have hfun : ((List.range ((periodYearDoys y0 30).length + 2 * (w / 2))).map
        (fun (i : Nat) => (0 : Int) - ((w / 2 : Nat) : Int) + i))
        = (List.range ((periodYearDoys y0 30).length + 2 * (w / 2))).map
            (fun (i : Nat) => (i : Int) - ((w / 2 : Nat) : Int)) :=
      List.map_congr_left (fun i _ => by ring)
    rw [hfun]
    exact merge_inner_range (w / 2) (periodYearDoys y0 30).length
  rw [hmerge]
  have hvals : (((List.range (periodYearDoys y0 30).length).map
      (fun (j : Nat) => ((j : Int), (none : Option Rat)))).map (fun p => p.2))
      = List.replicate (periodYearDoys y0 30).length (none : Option Rat) := by
    rw [List.map_map]
    rw [show ((fun (p : Int × Option Rat) => p.2)
        ∘ (fun (j : Nat) => ((j : Int), (none : Option Rat))))
        = (fun (j : Nat) => (none : Option Rat)) from rfl]
    rw [mapConstEq, List.length_range]
  rw [hvals, rolling_none w (periodYearDoys y0 30).length h3]
  rw [if_neg (by simp)]
  rw [collectResults_const (List.range 365) _
    (fun a _ => dayThreshold_all_missing percentile minp _ (periodYearDoys y0 30).length
      (a + 1) h1 h2)]
  rw [List.length_range]

/-- C9, witnessed at the reference period 1961..1990 with the median, a
window of five days and a minimum coverage of one half. -/
theorem C9_witness :
    (0 : Rat) ≤ 1 / 2 ∧ (1 / 2 : Rat) ≤ 1 ∧ 0 < 5 ∧
    calculate_percentile_threshold (allMissingSeries 1961) (1 / 2) (1961, 1961 + 29) 5 (1 / 2)
      = .ok (List.replicate 365 none) :=
  ⟨by norm_num, by norm_num, by norm_num,
    C9_all_missing_profile 1961 (1 / 2) (1 / 2) 5 (by norm_num) (by norm_num)
      (by norm_num) (by norm_num) (by norm_num)⟩
